import Mathlib

/-
Formal model of the complex-graphing calculator (OscarLitorell/complex-graphing).

The JavaScript sources are embedded shallowly:
- JavaScript numbers are modelled by JSNum: an exact rational together with the
  IEEE-754 special values Infinity, -Infinity and NaN.  The arithmetic
  operators follow the IEEE-754 special-value rules; finite arithmetic is kept
  exact (the claims under study only involve values where double rounding is
  exact).
- The transcendental Math builtins (sqrt via pow(x, 0.5), log, exp, cos, sin,
  atan2) are parameters collected in a MathModel; theorems assume only their
  documented special values (for example Math.log(0) = -Infinity).  A concrete
  defaultModel, exact on the sample points the witnesses use, instantiates the
  parameters.
- The Complex class and its operations are translated from src/script.js
  (lines 7-125).  The stack interpreter userFunction, the simple parseNumber
  and the variable lookup are translated from src/unnamed/part_000
  (lines 554-673); the older sign-splitting parseNumber is translated from
  src/script.js (lines 372-412) under the Script namespace.
- The per-token interpreter state (the functionStack array and the
  calculatedVars object) is explicit; the token list that userFunction builds
  from the function text is taken as input.  Applying a Complex operation to
  a missing (undefined) stack value raises a TypeError in JavaScript, modelled
  by the EvalError error of the Except monad.
-/

namespace ComplexGraphing

/-- Model of a JavaScript IEEE-754 double: an exact rational for the finite
values, plus Infinity, -Infinity and NaN.  The negative zero is identified
with zero (no claim under study distinguishes them). -/
inductive JSNum where
  | num (q : ℚ)
  | posInf
  | negInf
  | nan
deriving DecidableEq

/-- JavaScript unary minus on numbers. -/
def jsNeg : JSNum → JSNum
  | .num q => .num (-q)
  | .posInf => .negInf
  | .negInf => .posInf
  | .nan => .nan

/-- JavaScript addition, following the IEEE-754 special-value rules. -/
def jsAdd : JSNum → JSNum → JSNum
  | .nan, _ => .nan
  | _, .nan => .nan
  | .posInf, .negInf => .nan
  | .negInf, .posInf => .nan
  | .posInf, _ => .posInf
  | _, .posInf => .posInf
  | .negInf, _ => .negInf
  | _, .negInf => .negInf
  | .num a, .num b => .num (a + b)

/-- JavaScript subtraction, defined as addition of the negation (this agrees
with IEEE-754 subtraction on every case of the model). -/
def jsSub (a b : JSNum) : JSNum := jsAdd a (jsNeg b)

/-- JavaScript multiplication, following the IEEE-754 special-value rules. -/
def jsMul : JSNum → JSNum → JSNum
  | .nan, _ => .nan
  | _, .nan => .nan
  | .num a, .num b => .num (a * b)
  | .num a, .posInf => if a = 0 then .nan else if 0 < a then .posInf else .negInf
  | .num a, .negInf => if a = 0 then .nan else if 0 < a then .negInf else .posInf
  | .posInf, .num b => if b = 0 then .nan else if 0 < b then .posInf else .negInf
  | .negInf, .num b => if b = 0 then .nan else if 0 < b then .negInf else .posInf
  | .posInf, .posInf => .posInf
  | .posInf, .negInf => .negInf
  | .negInf, .posInf => .negInf
  | .negInf, .negInf => .posInf

/-- JavaScript division, following the IEEE-754 special-value rules (division
of a nonzero finite value by zero gives a signed infinity, 0/0 gives NaN). -/
def jsDiv : JSNum → JSNum → JSNum
  | .nan, _ => .nan
  | _, .nan => .nan
  | .num a, .num b =>
    if b = 0 then
      if a = 0 then .nan else if 0 < a then .posInf else .negInf
    else .num (a / b)
  | .num _, .posInf => .num 0
  | .num _, .negInf => .num 0
  | .posInf, .num b => if 0 ≤ b then .posInf else .negInf
  | .negInf, .num b => if 0 ≤ b then .negInf else .posInf
  | .posInf, .posInf => .nan
  | .posInf, .negInf => .nan
  | .negInf, .posInf => .nan
  | .negInf, .negInf => .nan

/-- JavaScript Math.abs. -/
def jsAbs : JSNum → JSNum
  | .num q => .num |q|
  | .posInf => .posInf
  | .negInf => .posInf
  | .nan => .nan

/-- JavaScript strict equality on numbers: NaN compares unequal to
everything, including itself. -/
def jsEq : JSNum → JSNum → Bool
  | .nan, _ => false
  | _, .nan => false
  | .num a, .num b => a = b
  | .posInf, .posInf => true
  | .negInf, .negInf => true
  | _, _ => false

/-- JavaScript comparison a less-or-equal b: false whenever either side is
NaN. -/
def jsLe : JSNum → JSNum → Bool
  | .nan, _ => false
  | _, .nan => false
  | .negInf, _ => true
  | _, .posInf => true
  | .posInf, _ => false
  | _, .negInf => false
  | .num a, .num b => a ≤ b

/-- Value of a list of decimal digit characters. -/
def digitsVal (cs : List Char) : ℕ :=
  cs.foldl (fun n c => 10 * n + (c.toNat - 48)) 0

/-- Parse an unsigned decimal literal (digits, optionally followed by a dot
and more digits; at least one digit overall), as accepted by the JavaScript
Number conversion.  Exponents and hex forms are outside the modelled subset;
no input relevant to the claims uses them. -/
def parseUnsigned (cs : List Char) : Option ℚ :=
  let intPart := cs.takeWhile Char.isDigit
  let rest := cs.dropWhile Char.isDigit
  match rest with
  | [] => if intPart = [] then none else some (digitsVal intPart)
  | c :: frac =>
    if c = '.' ∧ frac.all Char.isDigit ∧ (intPart ≠ [] ∨ frac ≠ []) then
      some ((digitsVal intPart : ℚ) + (digitsVal frac : ℚ) / ((10 : ℚ) ^ frac.length))
    else none

/-- Parse an optionally signed decimal literal. -/
def parseSigned (cs : List Char) : Option ℚ :=
  match cs with
  | '+' :: rest => parseUnsigned rest
  | '-' :: rest => (parseUnsigned rest).map (fun q => -q)
  | _ => parseUnsigned cs

/-- Model of JavaScript String.prototype.trim: strip leading and trailing
whitespace, working on the character list. -/
def jsTrim (s : String) : String :=
  String.mk (((s.data.dropWhile Char.isWhitespace).reverse.dropWhile Char.isWhitespace).reverse)

/-- Model of the JavaScript Number conversion applied to a string: trim
whitespace, the empty string converts to 0, Infinity forms convert to the
infinities, decimal literals convert exactly, anything else to NaN. -/
def jsNumber (s : String) : JSNum :=
  let t := jsTrim s
  if t = "" then .num 0
  else if t = "Infinity" ∨ t = "+Infinity" then .posInf
  else if t = "-Infinity" then .negInf
  else
    match parseSigned t.data with
    | some q => .num q
    | none => .nan

/-- The Complex value class of src/script.js lines 7-11: a pair of
JavaScript numbers. -/
structure Complex where
  re : JSNum
  im : JSNum
deriving DecidableEq

/-- Result record of Complex.toPolar (src/script.js lines 95-102). -/
structure Polar where
  r : JSNum
  theta : JSNum
deriving DecidableEq

/-- Parameters for the transcendental Math builtins used by the Complex
operations.  The sqrt field models Math.pow(x, 0.5); atan2 takes the y
component first, as Math.atan2 does.  The six complex trigonometric
operations csin..catan are modelled from the spec: their bodies (the sin,
cos, tan, asin, acos, atan methods of the current Complex class) are not
among the provided sources, and the spec constrains them only to be the
standard complex extensions, so they are left abstract. -/
structure MathModel where
  sqrt : JSNum → JSNum
  log : JSNum → JSNum
  exp : JSNum → JSNum
  cos : JSNum → JSNum
  sin : JSNum → JSNum
  atan2 : JSNum → JSNum → JSNum
  csin : Complex → Complex
  ccos : Complex → Complex
  ctan : Complex → Complex
  casin : Complex → Complex
  cacos : Complex → Complex
  catan : Complex → Complex

/-- Complex.toPolar (src/script.js lines 95-102): r is
pow(pow(re, 2) + pow(im, 2), 0.5) and theta is atan2(im, re). -/
def Complex.toPolar (M : MathModel) (num : Complex) : Polar :=
  { r := M.sqrt (jsAdd (jsMul num.re num.re) (jsMul num.im num.im)),
    theta := M.atan2 num.im num.re }

/-- Complex.fromPolar (src/script.js lines 17-21). -/
def Complex.fromPolar (M : MathModel) (r theta : JSNum) : Complex :=
  { re := jsMul r (M.cos theta), im := jsMul r (M.sin theta) }

/-- Complex.add (src/script.js lines 24-32). -/
def Complex.add (num1 num2 : Complex) : Complex :=
  { re := jsAdd num1.re num2.re, im := jsAdd num1.im num2.im }

/-- Complex.subtract (src/script.js lines 34-42). -/
def Complex.subtract (num1 num2 : Complex) : Complex :=
  { re := jsSub num1.re num2.re, im := jsSub num1.im num2.im }

/-- Complex.multiply (src/script.js lines 44-57). -/
def Complex.multiply (in1 in2 : Complex) : Complex :=
  let num1 := jsMul in1.re in2.re
  let num2 := jsMul in1.im in2.re
  let num3 := jsMul in1.re in2.im
  let num4 := jsMul in1.im in2.im
  { re := jsSub num1 num4, im := jsAdd num2 num3 }

/-- Complex.abs (src/script.js lines 91-93): the polar radius as a Complex
with zero imaginary part. -/
def Complex.abs (M : MathModel) (num : Complex) : Complex :=
  { re := (Complex.toPolar M num).r, im := .num 0 }

/-- Complex.ln (src/script.js lines 66-70). -/
def Complex.ln (M : MathModel) (num1 : Complex) : Complex :=
  let polar := Complex.toPolar M num1
  { re := M.log polar.r, im := polar.theta }

/-- Complex.raise (src/script.js lines 72-89): the zero-base special case
fires when the base has absolute value strictly equal to 0 and the exponent
has absolute value not strictly equal to 0; otherwise the principal polar
path is taken. -/
def Complex.raise (M : MathModel) (num1 num2 : Complex) : Complex :=
  if jsEq (Complex.abs M num1).re (.num 0) && !(jsEq (Complex.abs M num2).re (.num 0)) then
    { re := .num 0, im := .num 0 }
  else
    let num1Polar := Complex.toPolar M num1
    let absB := num1Polar.r
    let argB := num1Polar.theta
    Complex.fromPolar M
      (M.exp (jsSub (jsMul num2.re (M.log absB)) (jsMul num2.im argB)))
      (jsAdd (jsMul num2.im (M.log absB)) (jsMul num2.re argB))

/-- Complex.divide (src/script.js lines 59-64): multiply the dividend by the
divisor raised to -1 (the bare -1 is promoted to Complex(-1, 0) inside
raise). -/
def Complex.divide (M : MathModel) (num1 num2 : Complex) : Complex :=
  Complex.multiply num1 (Complex.raise M num2 { re := .num (-1), im := .num 0 })

/-- Concrete Math.pow(x, 0.5) instance: exact on perfect squares of
rationals (the only finite points the witnesses evaluate), with the correct
special values. -/
def defaultSqrt : JSNum → JSNum
  | .num q =>
    if q < 0 then .nan
    else
      let n := q.num.toNat.sqrt
      let d := q.den.sqrt
      if (n : ℤ) * n = q.num ∧ d * d = q.den then .num ((n : ℚ) / (d : ℚ)) else .num 0
  | .posInf => .posInf
  | .negInf => .nan
  | .nan => .nan

/-- Concrete Math.log instance: correct at 0 (gives -Infinity), on negative
inputs (NaN) and on the special values; the value at other positive finite
points is irrelevant to every theorem below. -/
def defaultLog : JSNum → JSNum
  | .num q => if q = 0 then .negInf else if q < 0 then .nan else .num 0
  | .posInf => .posInf
  | .negInf => .nan
  | .nan => .nan

/-- Concrete Math.exp instance: correct on the special values; the value at
finite points is irrelevant to every theorem below. -/
def defaultExp : JSNum → JSNum
  | .num _ => .num 1
  | .posInf => .posInf
  | .negInf => .num 0
  | .nan => .nan

/-- Concrete Math.cos and Math.sin instance: NaN on NaN and on the
infinities; the finite values are irrelevant to every theorem below. -/
def defaultTrig : JSNum → JSNum
  | .num _ => .num 0
  | .posInf => .nan
  | .negInf => .nan
  | .nan => .nan

/-- Concrete Math.atan2 instance: atan2(0, 0) = 0 and NaN propagation; the
other values are irrelevant to every theorem below. -/
def defaultAtan2 : JSNum → JSNum → JSNum
  | .nan, _ => .nan
  | _, .nan => .nan
  | _, _ => .num 0

/-- Concrete MathModel used by the witnesses.  The complex trigonometric
operations are unconstrained by every theorem below and are instantiated by
the identity. -/
def defaultModel : MathModel where
  sqrt := defaultSqrt
  log := defaultLog
  exp := defaultExp
  cos := defaultTrig
  sin := defaultTrig
  atan2 := defaultAtan2
  csin := fun z => z
  ccos := fun z => z
  ctan := fun z => z
  casin := fun z => z
  cacos := fun z => z
  catan := fun z => z

/-- parseNumber of the current app (src/unnamed/part_000 lines 566-573): a
string not ending in the character i is handed whole to the Number
conversion as the real part; otherwise the bare string i becomes 1i and the
prefix before the final i is converted as the imaginary part. -/
def parseNumber (num : String) : Complex :=
  if num.data.getLast? ≠ some 'i' then
    { re := jsNumber num, im := .num 0 }
  else
    let num := if num = "i" then "1i" else num
    { re := .num 0, im := jsNumber (String.mk num.data.dropLast) }

/-- Splitting loop of the older parseNumber (src/script.js lines 379-386):
starting from index 1, the string is cut before every + or - sign;
accumulator argument holds the current piece reversed. -/
def splitSignedAux : List Char → List Char → List (List Char)
  | [], acc => [acc.reverse]
  | c :: rest, acc =>
    if c = '+' ∨ c = '-' then acc.reverse :: splitSignedAux rest [c]
    else splitSignedAux rest (c :: acc)

/-- Cut a character list into sign-led pieces; the character at index 0
never starts a new piece, so a leading sign stays attached. -/
def splitSigned : List Char → List (List Char)
  | [] => [[]]
  | c :: rest => splitSignedAux rest [c]

/-- Per-piece accumulation step of the older parseNumber
(src/script.js lines 390-410).  A piece whose final character is one of
i, I, j, J contributes to the imaginary part; a bare sign (or empty prefix)
before the suffix counts as plus or minus one.  Other pieces are converted
by Number and added to the real part; the empty piece contributes
Number of the empty string, which is 0. -/
def Script.accumPiece (out : Complex) (number : List Char) : Complex :=
  match number.getLast? with
  | some c =>
    if c = 'i' ∨ c = 'I' ∨ c = 'j' ∨ c = 'J' then
      let strNum := number.dropLast
      if strNum.length ≤ 1 ∧ (strNum = [] ∨ strNum = ['+'] ∨ strNum = ['-']) then
        if strNum = ['-'] then { out with im := jsSub out.im (.num 1) }
        else { out with im := jsAdd out.im (.num 1) }
      else { out with im := jsAdd out.im (jsNumber (String.mk strNum)) }
    else { out with re := jsAdd out.re (jsNumber (String.mk number)) }
  | none => { out with re := jsAdd out.re (jsNumber (String.mk number)) }

/-- parseNumber of src/script.js lines 372-412: commas are normalized to
dots, whitespace is removed, the string is split at interior signs, and the
pieces are accumulated into one Complex value. -/
def Script.parseNumber (input : String) : Complex :=
  let cleaned := (input.data.map (fun c => if c = ',' then '.' else c)).filter
    (fun c => !c.isWhitespace)
  (splitSigned cleaned).foldl Script.accumPiece { re := .num 0, im := .num 0 }

/-- An entry of the variableList registry (src/unnamed/part_000
lines 538-550): only the name and current Complex value are read by the
interpreter. -/
structure Variable where
  name : String
  value : Complex
deriving DecidableEq

/-- Combination of getVariableIndex (src/unnamed/part_000 lines 554-559)
with the read of variableList at that index: the value of the first entry
whose name matches, or none when getVariableIndex returns -1. -/
def lookupVariable : List Variable → String → Option Complex
  | [], _ => none
  | v :: rest, n => if v.name = n then some v.value else lookupVariable rest n

/-- The operator symbols of the operations table (src/unnamed/part_000
lines 589-603). -/
inductive Operation where
  | add
  | subtract
  | multiply
  | divide
  | raise
  | ln
  | abs
  | sin
  | cos
  | tan
  | asin
  | acos
  | atan
deriving DecidableEq

/-- The operations table (src/unnamed/part_000 lines 589-603), as symbol
lookup. -/
def operations (s : String) : Option Operation :=
  if s = "+" then some .add
  else if s = "-" then some .subtract
  else if s = "*" then some .multiply
  else if s = "/" then some .divide
  else if s = "^" then some .raise
  else if s = "ln" then some .ln
  else if s = "abs" then some .abs
  else if s = "sin" then some .sin
  else if s = "cos" then some .cos
  else if s = "tan" then some .tan
  else if s = "asin" then some .asin
  else if s = "acos" then some .acos
  else if s = "atan" then some .atan
  else none

/-- The args field of the operations table. -/
def opArgs : Operation → Nat
  | .add => 2
  | .subtract => 2
  | .multiply => 2
  | .divide => 2
  | .raise => 2
  | _ => 1

/-- Failure of one interpreter step.  The JavaScript loop has no error
handling of its own; the only failure it can produce is the TypeError
raised when a Complex operation reads a field of an undefined argument,
which happens exactly when the operand list is too short or contains an
undefined stack value. -/
inductive EvalError where
  | typeError
deriving DecidableEq

/-- A JavaScript value held on the interpreter stack or in the
calculated-variable map: a Complex object, or undefined (none). -/
abbrev JSVal := Option Complex

/-- Membership plus read of the calculatedVars object: the value of the
most recent binding of the name, or none when the name is not a key. -/
def calcLookup : List (String × JSVal) → String → Option JSVal
  | [], _ => none
  | (k, v) :: rest, n => if k = n then some v else calcLookup rest n

/-- Result of Array.prototype.pop on the value stack: undefined on the
empty array, the top value otherwise (the list head is the top). -/
def popValue : List JSVal → JSVal
  | [] => none
  | v :: _ => v

/-- The mutable state of one userFunction call: the functionStack array
(head is the top) and the calculatedVars object (most recent binding
first). -/
structure EvalState where
  functionStack : List JSVal
  calculatedVars : List (String × JSVal)
deriving DecidableEq

/-- Apply the function field of an operations entry to the list of argument
values (src/unnamed/part_000 lines 653-655).  Every Complex operation reads
its arguments, so the call raises a TypeError unless exactly the right
number of defined values is supplied; the slice that builds the argument
list never produces extra values.  The six trigonometric entries dispatch
to the spec-modelled MathModel fields. -/
def applyOperation (M : MathModel) : Operation → List JSVal → Except EvalError Complex
  | .add, [some a, some b] => .ok (Complex.add a b)
  | .subtract, [some a, some b] => .ok (Complex.subtract a b)
  | .multiply, [some a, some b] => .ok (Complex.multiply a b)
  | .divide, [some a, some b] => .ok (Complex.divide M a b)
  | .raise, [some a, some b] => .ok (Complex.raise M a b)
  | .ln, [some a] => .ok (Complex.ln M a)
  | .abs, [some a] => .ok (Complex.abs M a)
  | .sin, [some a] => .ok (M.csin a)
  | .cos, [some a] => .ok (M.ccos a)
  | .tan, [some a] => .ok (M.ctan a)
  | .asin, [some a] => .ok (M.casin a)
  | .acos, [some a] => .ok (M.cacos a)
  | .atan, [some a] => .ok (M.catan a)
  | _, _ => .error .typeError

/-- One iteration of the userFunction token loop (src/unnamed/part_000
lines 636-671).  The trimmed line is matched in source order: the literal
x pushes the call argument; empty and comment lines are skipped; a line
starting with = pops one value (undefined on an empty stack) and binds it
under the rest of the line; an operator symbol slices the top args values
off the stack in stack order, applies the Complex operation to them in
call order and pushes the one result; otherwise the first matching
variableList entry, then the calculatedVars binding, then parseNumber
provide the pushed value. -/
def execLine (M : MathModel) (variableList : List Variable) (num : Complex)
    (st : EvalState) (rawLine : String) : Except EvalError EvalState :=
  let line := jsTrim rawLine
  if line = "x" then
    .ok { st with functionStack := some num :: st.functionStack }
  else if line ≠ "" ∧ line.data.head? ≠ some '#' then
    if line.data.head? = some '=' then
      .ok { functionStack := st.functionStack.tail,
            calculatedVars := (jsTrim (String.mk line.data.tail), popValue st.functionStack) :: st.calculatedVars }
    else
      match operations line with
      | some operation =>
        (applyOperation M operation ((st.functionStack.take (opArgs operation)).reverse)).map
          (fun value =>
            { st with functionStack := some value :: st.functionStack.drop (opArgs operation) })
      | none =>
        match lookupVariable variableList line with
        | some v => .ok { st with functionStack := some v :: st.functionStack }
        | none =>
          match calcLookup st.calculatedVars line with
          | some w => .ok { st with functionStack := w :: st.functionStack }
          | none => .ok { st with functionStack := some (parseNumber line) :: st.functionStack }
  else .ok st

/-- userFunction (src/unnamed/part_000 lines 610-673) on an already built
token list: fold the token loop over the list from an empty stack and an
empty calculated-variable map and return the remaining stack in insertion
order. -/
def userFunction (M : MathModel) (variableList : List Variable)
    (functionList : List String) (num : Complex) : Except EvalError (List JSVal) :=
  match functionList.foldlM (execLine M variableList num) { functionStack := [], calculatedVars := [] } with
  | .ok st => .ok st.functionStack.reverse
  | .error e => .error e

/-- Loop guard of the batch loop in updateFunctionValues
(src/unnamed/part_000 lines 518-530): the step is the absolute value of the
resolution field, with no zero check, and iteration i runs when i is
less-or-equal (end - begin) / step under the JavaScript comparison. -/
def updateFunctionValuesGuard (beginX endX resolution : JSNum) (i : ℕ) : Bool :=
  jsLe (.num (i : ℚ)) (jsDiv (jsSub endX beginX) (jsAbs resolution))

/-- Helper: multiplying NaN by anything gives NaN. -/
theorem jsMul_nan_left (x : JSNum) : jsMul .nan x = .nan := by
  cases x <;> rfl

/-- C6: raise with a base of absolute value 0 and an exponent of absolute
value not 0 returns exactly the Complex zero via the special case, never
NaN. -/
theorem raise_zero_base_nonzero_exponent (M : MathModel) (b e : Complex)
    (hb : jsEq (Complex.abs M b).re (.num 0) = true)
    (he : jsEq (Complex.abs M e).re (.num 0) = false) :
    Complex.raise M b e = { re := .num 0, im := .num 0 } := by
  unfold Complex.raise
  rw [hb, he]
  rfl

/-- Witness for the C6 theorem at base 0 and exponent 2 under the concrete
math model. -/
theorem raise_zero_base_nonzero_exponent_witness :
    jsEq (Complex.abs defaultModel { re := .num 0, im := .num 0 }).re (.num 0) = true ∧
    jsEq (Complex.abs defaultModel { re := .num 2, im := .num 0 }).re (.num 0) = false ∧
    Complex.raise defaultModel { re := .num 0, im := .num 0 } { re := .num 2, im := .num 0 } =
      { re := .num 0, im := .num 0 } := by
  refine ⟨by with_unfolding_all rfl, by with_unfolding_all rfl, ?_⟩
  exact raise_zero_base_nonzero_exponent defaultModel _ _
    (by with_unfolding_all rfl) (by with_unfolding_all rfl)

/-- C10: raising the zero Complex to the zero Complex skips the zero-base
special case and runs the polar path, where log(0) = -Infinity makes
0 * log(0) NaN, so the result is (NaN, NaN).  Only the documented special
values of the Math builtins are assumed. -/
theorem raise_zero_to_zero_nan (M : MathModel)
    (hsqrt : M.sqrt (.num 0) = .num 0)
    (hatan : M.atan2 (.num 0) (.num 0) = .num 0)
    (hlog : M.log (.num 0) = .negInf)
    (hexp : M.exp .nan = .nan) :
    Complex.raise M { re := .num 0, im := .num 0 } { re := .num 0, im := .num 0 } =
      { re := .nan, im := .nan } := by
  have h0 : jsAdd (jsMul (JSNum.num 0) (JSNum.num 0)) (jsMul (JSNum.num 0) (JSNum.num 0)) =
      JSNum.num 0 := by with_unfolding_all rfl
  unfold Complex.raise Complex.abs Complex.toPolar Complex.fromPolar
  dsimp only
  rw [h0, hsqrt, hatan, hlog]
  rw [Bool.and_not_self]
  rw [if_neg (by decide : ¬ (false = true))]
  rw [show jsMul (JSNum.num 0) JSNum.negInf = JSNum.nan from by with_unfolding_all rfl]
  rw [show jsMul (JSNum.num 0) (JSNum.num 0) = JSNum.num 0 from by with_unfolding_all rfl]
  rw [show jsSub JSNum.nan (JSNum.num 0) = JSNum.nan from by with_unfolding_all rfl]
  rw [show jsAdd JSNum.nan (JSNum.num 0) = JSNum.nan from by with_unfolding_all rfl]
  rw [hexp]
  rw [jsMul_nan_left, jsMul_nan_left]

/-- Witness for the C10 theorem under the concrete math model. -/
theorem raise_zero_to_zero_nan_witness :
    defaultModel.log (.num 0) = .negInf ∧
    Complex.raise defaultModel { re := .num 0, im := .num 0 } { re := .num 0, im := .num 0 } =
      { re := .nan, im := .nan } := by
  refine ⟨rfl, ?_⟩
  exact raise_zero_to_zero_nan defaultModel (by with_unfolding_all rfl) rfl rfl rfl

/-- C1 counterexample: dividing the finite Complex 1 by the Complex zero
gives exactly (0, 0), not (NaN, NaN), because raise(0, -1) hits the
zero-base special case. -/
theorem divide_by_zero_not_nan_counterexample :
    Complex.divide defaultModel { re := .num 1, im := .num 0 } { re := .num 0, im := .num 0 } =
      { re := .num 0, im := .num 0 } ∧
    Complex.divide defaultModel { re := .num 1, im := .num 0 } { re := .num 0, im := .num 0 } ≠
      { re := .nan, im := .nan } := by
  refine ⟨by with_unfolding_all rfl, by with_unfolding_all decide⟩

/-- C1 as amended: divide is definitionally multiply with raise to the -1,
and for a divisor of absolute value 0 the raise returns the Complex zero by
its special case, so dividing any finite Complex by zero gives (0, 0)
rather than (NaN, NaN). -/
theorem divide_eq_multiply_raise_and_zero_divisor (M : MathModel) (a b : Complex)
    (qa qb : ℚ)
    (hsq1 : M.sqrt (.num 1) = .num 1)
    (hb : jsEq (Complex.abs M b).re (.num 0) = true)
    (ha : a = { re := .num qa, im := .num qb }) :
    Complex.divide M a b =
      Complex.multiply a (Complex.raise M b { re := .num (-1), im := .num 0 }) ∧
    Complex.divide M a b = { re := .num 0, im := .num 0 } := by
  constructor
  · rfl
  · have he1 : (Complex.abs M { re := JSNum.num (-1), im := JSNum.num 0 }).re =
        M.sqrt (JSNum.num 1) := by with_unfolding_all rfl
    have he : jsEq (Complex.abs M { re := JSNum.num (-1), im := JSNum.num 0 }).re (.num 0) =
        false := by
      rw [he1, hsq1]
      with_unfolding_all rfl
    have hr : Complex.raise M b { re := JSNum.num (-1), im := JSNum.num 0 } =
        { re := .num 0, im := .num 0 } := by
      unfold Complex.raise
      rw [hb, he]
      rfl
    subst ha
    unfold Complex.divide
    rw [hr]
    unfold Complex.multiply
    simp [jsMul, jsSub, jsAdd, jsNeg]

/-- Witness for the C1 amended theorem at a = 2 + 3i and b = 0 under the
concrete math model. -/
theorem divide_zero_divisor_witness :
    defaultModel.sqrt (.num 1) = .num 1 ∧
    jsEq (Complex.abs defaultModel { re := .num 0, im := .num 0 }).re (.num 0) = true ∧
    Complex.divide defaultModel { re := .num 2, im := .num 3 } { re := .num 0, im := .num 0 } =
      { re := .num 0, im := .num 0 } := by
  refine ⟨by with_unfolding_all rfl, by with_unfolding_all rfl, ?_⟩
  exact (divide_eq_multiply_raise_and_zero_divisor defaultModel _ _ 2 3
    (by with_unfolding_all rfl) (by with_unfolding_all rfl) rfl).2

/-- C9: at the failing input minX = 0, maxX = 1, resolution = 0, the batch
loop of updateFunctionValues has step abs(0) = 0, so the guard compares i
against (1 - 0) / 0 = Infinity and holds for every iteration index: the
loop never terminates, instead of using the 0.05 fallback (which only
exists in the drawing path updateCanvas). -/
theorem updateFunctionValues_zero_resolution_guard (i : ℕ) :
    updateFunctionValuesGuard (.num 0) (.num 1) (.num 0) i = true := by
  with_unfolding_all rfl

/-- C7 counterexample: the parseNumber of the current app maps the literal
-i to (0, NaN), not to (0, -1) (the Number conversion of the bare sign is
NaN). -/
theorem parseNumber_minus_i_counterexample :
    parseNumber ("-i") = { re := .num 0, im := .nan } ∧
    parseNumber ("-i") ≠ { re := .num 0, im := .num (-1) } := by
  refine ⟨by with_unfolding_all rfl, by with_unfolding_all decide⟩

/-- C7 as amended: the sign-splitting parseNumber of script.js maps all
four literals as the claim states; the simpler parseNumber of the current
app agrees on 3i and i but maps -i and 4-3i to imaginary NaN (those forms
are handled by the expression parser before reaching it). -/
theorem parseNumber_literals :
    Script.parseNumber ("3i") = { re := .num 0, im := .num 3 } ∧
    Script.parseNumber ("i") = { re := .num 0, im := .num 1 } ∧
    Script.parseNumber ("-i") = { re := .num 0, im := .num (-1) } ∧
    Script.parseNumber ("4-3i") = { re := .num 4, im := .num (-3) } ∧
    parseNumber ("3i") = { re := .num 0, im := .num 3 } ∧
    parseNumber ("i") = { re := .num 0, im := .num 1 } ∧
    parseNumber ("-i") = { re := .num 0, im := .nan } ∧
    parseNumber ("4-3i") = { re := .num 0, im := .nan } := by
  refine ⟨by with_unfolding_all rfl, by with_unfolding_all rfl, by with_unfolding_all rfl,
    by with_unfolding_all rfl, by with_unfolding_all rfl, by with_unfolding_all rfl,
    by with_unfolding_all rfl, by with_unfolding_all rfl⟩

/-- Helper: an operator lookup only succeeds on one of the thirteen
operator symbols. -/
theorem operations_eq_some (s : String) (op : Operation) (h : operations s = some op) :
    s = "+" ∨ s = "-" ∨ s = "*" ∨ s = "/" ∨ s = "^" ∨ s = "ln" ∨ s = "abs" ∨
    s = "sin" ∨ s = "cos" ∨ s = "tan" ∨ s = "asin" ∨ s = "acos" ∨ s = "atan" := by
  unfold operations at h
  by_cases h1 : s = "+"
  · exact Or.inl h1
  rw [if_neg h1] at h
  by_cases h2 : s = "-"
  · exact Or.inr (Or.inl h2)
  rw [if_neg h2] at h
  by_cases h3 : s = "*"
  · exact Or.inr (Or.inr (Or.inl h3))
  rw [if_neg h3] at h
  by_cases h4 : s = "/"
  · exact Or.inr (Or.inr (Or.inr (Or.inl h4)))
  rw [if_neg h4] at h
  by_cases h5 : s = "^"
  · exact Or.inr (Or.inr (Or.inr (Or.inr (Or.inl h5))))
  rw [if_neg h5] at h
  by_cases h6 : s = "ln"
  · exact Or.inr (Or.inr (Or.inr (Or.inr (Or.inr (Or.inl h6)))))
  rw [if_neg h6] at h
  by_cases h7 : s = "abs"
  · exact Or.inr (Or.inr (Or.inr (Or.inr (Or.inr (Or.inr (Or.inl h7))))))
  rw [if_neg h7] at h
  by_cases h8 : s = "sin"
  · exact Or.inr (Or.inr (Or.inr (Or.inr (Or.inr (Or.inr (Or.inr (Or.inl h8)))))))
  rw [if_neg h8] at h
  by_cases h9 : s = "cos"
  · exact Or.inr (Or.inr (Or.inr (Or.inr (Or.inr (Or.inr (Or.inr (Or.inr (Or.inl h9))))))))
  rw [if_neg h9] at h
  by_cases h10 : s = "tan"
  · exact Or.inr (Or.inr (Or.inr (Or.inr (Or.inr (Or.inr (Or.inr (Or.inr (Or.inr
      (Or.inl h10)))))))))
  rw [if_neg h10] at h
  by_cases h11 : s = "asin"
  · exact Or.inr (Or.inr (Or.inr (Or.inr (Or.inr (Or.inr (Or.inr (Or.inr (Or.inr (Or.inr
      (Or.inl h11))))))))))
  rw [if_neg h11] at h
  by_cases h12 : s = "acos"
  · exact Or.inr (Or.inr (Or.inr (Or.inr (Or.inr (Or.inr (Or.inr (Or.inr (Or.inr (Or.inr
      (Or.inr (Or.inl h12)))))))))))
  rw [if_neg h12] at h
  by_cases h13 : s = "atan"
  · exact Or.inr (Or.inr (Or.inr (Or.inr (Or.inr (Or.inr (Or.inr (Or.inr (Or.inr (Or.inr
      (Or.inr (Or.inr h13)))))))))))
  rw [if_neg h13] at h
  exact nomatch h

/-- Helper: an operator symbol is not the variable x, is nonempty, and does
not start with a comment or assignment marker. -/
theorem operations_line_facts (s : String) (op : Operation) (h : operations s = some op) :
    s ≠ "x" ∧ s ≠ "" ∧ s.data.head? ≠ some '#' ∧ s.data.head? ≠ some '=' := by
  rcases operations_eq_some s op h with
    h1 | h1 | h1 | h1 | h1 | h1 | h1 | h1 | h1 | h1 | h1 | h1 | h1 <;>
    subst h1 <;> exact ⟨by decide, by decide, by decide, by decide⟩

/-- Helper: on an operator token, the interpreter step reduces to slicing
the top arguments and mapping the Complex operation over the stack. -/
theorem execLine_op_case (M : MathModel) (vl : List Variable) (num : Complex)
    (st : EvalState) (s : String) (operation : Operation)
    (hop : operations (jsTrim s) = some operation) :
    execLine M vl num st s =
      (applyOperation M operation ((st.functionStack.take (opArgs operation)).reverse)).map
        (fun value =>
          { st with functionStack := some value :: st.functionStack.drop (opArgs operation) }) := by
  obtain ⟨hx, hne, hhash, heqs⟩ := operations_line_facts _ _ hop
  simp only [execLine]
  rw [if_neg hx, if_pos (And.intro hne hhash), if_neg heqs, hop]

/-- Helper: applying a Complex operation to an argument list of the wrong
length raises the TypeError. -/
theorem applyOperation_short (M : MathModel) (op : Operation) (vals : List JSVal)
    (h : vals.length ≠ opArgs op) : applyOperation M op vals = .error .typeError := by
  cases op <;> rcases vals with _ | ⟨_ | a, _ | ⟨_ | b, _ | ⟨c, rest⟩⟩⟩ <;>
    first
      | rfl
      | simp_all [opArgs]

/-- Helper: applying a Complex operation to defined values of the right
arity succeeds. -/
theorem applyOperation_ok (M : MathModel) (op : Operation) (vals : List JSVal)
    (hlen : vals.length = opArgs op) (hsome : ∀ v ∈ vals, v.isSome) :
    ∃ value, applyOperation M op vals = .ok value := by
  cases op <;> rcases vals with _ | ⟨_ | a, _ | ⟨_ | b, _ | ⟨c, rest⟩⟩⟩ <;>
    first
      | exact ⟨_, rfl⟩
      | simp_all [opArgs, applyOperation]

/-- Helper: on an identifier bound only as a calculated variable, the
interpreter step pushes the calculated binding. -/
theorem execLine_calcVar (M : MathModel) (vl : List Variable) (num : Complex)
    (st : EvalState) (s : String) (w : JSVal)
    (hx : jsTrim s ≠ "x") (hne : jsTrim s ≠ "")
    (hhash : (jsTrim s).data.head? ≠ some '#')
    (heqs : (jsTrim s).data.head? ≠ some '=')
    (hop : operations (jsTrim s) = none)
    (hvar : lookupVariable vl (jsTrim s) = none)
    (hcalc : calcLookup st.calculatedVars (jsTrim s) = some w) :
    execLine M vl num st s = .ok { st with functionStack := w :: st.functionStack } := by
  simp only [execLine]
  rw [if_neg hx, if_pos (And.intro hne hhash), if_neg heqs, hop, hvar, hcalc]

/-- Helper: one successful step of the Except fold peels one token. -/
theorem foldlM_except_cons {ε σ α : Type} (f : σ → α → Except ε σ) (s s2 : σ) (a : α)
    (as : List α) (h : f s a = Except.ok s2) :
    List.foldlM f s (a :: as) = List.foldlM f s2 as := by
  show (f s a >>= fun t => List.foldlM f t as) = _
  rw [h]
  rfl

/-- C2 counterexample: with a Variable Registry entry a = 7 and the program
x, =a, a at x = 5 (which binds the calculated variable a to 5), the
interpreter pushes the Registry value 7, not the CalculatedVariable value
5. -/
theorem registry_shadows_calculated_counterexample :
    userFunction defaultModel [{ name := "a", value := { re := .num 7, im := .num 0 } }]
      [("x"), ("=a"), ("a")] { re := .num 5, im := .num 0 } =
      .ok [some { re := .num 7, im := .num 0 }] ∧
    ¬ userFunction defaultModel [{ name := "a", value := { re := .num 7, im := .num 0 } }]
      [("x"), ("=a"), ("a")] { re := .num 5, im := .num 0 } =
      .ok [some { re := .num 5, im := .num 0 }] := by
  constructor
  · rfl
  · intro h
    have h2 := Except.ok.inj ((rfl :
      userFunction defaultModel [{ name := "a", value := { re := .num 7, im := .num 0 } }]
        [("x"), ("=a"), ("a")] { re := .num 5, im := .num 0 } =
      .ok [some { re := .num 7, im := .num 0 }]).symm.trans h)
    exact absurd h2 (by with_unfolding_all decide)

/-- C2 as amended: for an identifier bound both in the Variable Registry
and in the CalculatedVariable map, the interpreter pushes the Registry
binding; the CalculatedVariable map is consulted only when the Registry
lookup fails. -/
theorem identifier_resolution_registry_first (M : MathModel) (vl : List Variable)
    (num : Complex) (st : EvalState) (s : String) (v : Complex) (w : JSVal)
    (hx : jsTrim s ≠ "x") (hne : jsTrim s ≠ "")
    (hhash : (jsTrim s).data.head? ≠ some '#')
    (heqs : (jsTrim s).data.head? ≠ some '=')
    (hop : operations (jsTrim s) = none)
    (hvar : lookupVariable vl (jsTrim s) = some v)
    (_hcalc : calcLookup st.calculatedVars (jsTrim s) = some w) :
    execLine M vl num st s = .ok { st with functionStack := some v :: st.functionStack } := by
  simp only [execLine]
  rw [if_neg hx, if_pos (And.intro hne hhash), if_neg heqs, hop, hvar]

/-- Witness for the C2 amended theorem: name a bound to 7 in the Registry
and to 5 in the CalculatedVariable map; the step pushes 7. -/
theorem identifier_resolution_registry_first_witness :
    lookupVariable [{ name := "a", value := { re := .num 7, im := .num 0 } }] (jsTrim ("a")) =
      some { re := .num 7, im := .num 0 } ∧
    calcLookup [(("a"), some { re := .num 5, im := .num 0 })] (jsTrim ("a")) =
      some (some { re := .num 5, im := .num 0 }) ∧
    execLine defaultModel [{ name := "a", value := { re := .num 7, im := .num 0 } }]
      { re := .num 0, im := .num 0 }
      { functionStack := [], calculatedVars := [(("a"), some { re := .num 5, im := .num 0 })] }
      ("a") =
      .ok { functionStack := [some { re := .num 7, im := .num 0 }],
            calculatedVars := [(("a"), some { re := .num 5, im := .num 0 })] } := by
  refine ⟨rfl, rfl, ?_⟩
  exact identifier_resolution_registry_first defaultModel _ _ _ ("a") _ _
    (by decide) (by decide) (by decide) (by decide) rfl rfl rfl

/-- C3 counterexample: the program =a, a with an empty stack does not fail:
the Assign pops undefined from the empty stack and binds it, and the later
read of a pushes undefined, so evaluation succeeds with one undefined
result instead of failing with a StackUnderflow error. -/
theorem assign_empty_stack_counterexample :
    userFunction defaultModel [] [("=a"), ("a")] { re := .num 5, im := .num 0 } = .ok [none] :=
  rfl

/-- C3 as amended: executing an Assign token never fails; on an empty stack
it binds undefined under the assigned name, and on a non-empty stack it
pops exactly the top value and binds it, the new binding shadowing any
prior binding of that name. -/
theorem assign_pops_and_binds (M : MathModel) (vl : List Variable)
    (num : Complex) (st : EvalState) (s : String)
    (heq : (jsTrim s).data.head? = some '=') :
    execLine M vl num st s =
      .ok { functionStack := st.functionStack.tail,
            calculatedVars :=
              (jsTrim (String.mk (jsTrim s).data.tail), popValue st.functionStack) ::
                st.calculatedVars } ∧
    calcLookup
      ((jsTrim (String.mk (jsTrim s).data.tail), popValue st.functionStack) ::
        st.calculatedVars)
      (jsTrim (String.mk (jsTrim s).data.tail)) = some (popValue st.functionStack) := by
  have hx : jsTrim s ≠ "x" := by
    intro hc
    rw [hc] at heq
    exact absurd heq (by decide)
  have hne : jsTrim s ≠ "" := by
    intro hc
    rw [hc] at heq
    exact absurd heq (by decide)
  have hhash : (jsTrim s).data.head? ≠ some '#' := by
    rw [heq]
    decide
  constructor
  · simp only [execLine]
    rw [if_neg hx, if_pos (And.intro hne hhash), if_pos heq]
  · simp [calcLookup]

/-- Witness for the C3 amended theorem: the token =a against the singleton
stack holding 3 binds a to 3 and empties the stack. -/
theorem assign_pops_and_binds_witness :
    (jsTrim ("=a")).data.head? = some '=' ∧
    execLine defaultModel [] { re := .num 0, im := .num 0 }
      { functionStack := [some { re := .num 3, im := .num 0 }], calculatedVars := [] } ("=a") =
      .ok { functionStack := [],
            calculatedVars := [(("a"), some { re := .num 3, im := .num 0 })] } := by
  refine ⟨by decide, ?_⟩
  exact (assign_pops_and_binds defaultModel [] { re := .num 0, im := .num 0 }
    { functionStack := [some { re := .num 3, im := .num 0 }], calculatedVars := [] } ("=a")
    (by decide)).1

/-- C4: an operator token against a stack with fewer values than its arity
fails (the Complex operation reads an undefined argument, the modelled
StackUnderflow failure); with enough defined values it pops exactly the top
arity values in call order, applies the operation, and pushes the one
result; in particular the one-token program + fails. -/
theorem operator_arity_stack_behavior (M : MathModel) (vl : List Variable)
    (num : Complex) (st : EvalState) (s : String) (operation : Operation)
    (hop : operations (jsTrim s) = some operation) :
    (st.functionStack.length < opArgs operation →
      execLine M vl num st s = .error .typeError) ∧
    (opArgs operation ≤ st.functionStack.length →
      (∀ v ∈ st.functionStack.take (opArgs operation), v.isSome) →
      ∃ value,
        applyOperation M operation ((st.functionStack.take (opArgs operation)).reverse) =
          .ok value ∧
        execLine M vl num st s =
          .ok { functionStack := some value :: st.functionStack.drop (opArgs operation),
                calculatedVars := st.calculatedVars }) ∧
    userFunction M vl [("+")] num = .error .typeError := by
  refine ⟨?_, ?_, rfl⟩
  · intro hlt
    rw [execLine_op_case M vl num st s operation hop]
    rw [applyOperation_short M operation _ (by
      rw [List.length_reverse, List.length_take]
      omega)]
    rfl
  · intro hle hsome
    obtain ⟨value, hv⟩ := applyOperation_ok M operation
      ((st.functionStack.take (opArgs operation)).reverse)
      (by rw [List.length_reverse, List.length_take]; omega)
      (by
        intro v hvmem
        exact hsome v (List.mem_reverse.mp hvmem))
    refine ⟨value, hv, ?_⟩
    rw [execLine_op_case M vl num st s operation hop, hv]
    rfl

/-- Witness for the C4 theorem: the + operator against the empty stack
fails. -/
theorem operator_arity_stack_behavior_witness :
    (([] : List JSVal)).length < opArgs Operation.add ∧
    execLine defaultModel [] { re := .num 0, im := .num 0 }
      { functionStack := [], calculatedVars := [] } ("+") = .error .typeError := by
  refine ⟨by decide, ?_⟩
  exact (operator_arity_stack_behavior defaultModel [] { re := .num 0, im := .num 0 }
    { functionStack := [], calculatedVars := [] } ("+") Operation.add rfl).1 (by decide)

/-- C5 counterexample: the one-token program foo (an identifier in neither
the Registry nor the CalculatedVariable map) does not fail: the interpreter
pushes parseNumber of the identifier, the Complex (NaN, 0). -/
theorem unknown_identifier_counterexample :
    userFunction defaultModel [] [("foo")] { re := .num 5, im := .num 0 } =
      .ok [some { re := .nan, im := .num 0 }] :=
  rfl

/-- C5 as amended: an identifier bound neither in the Variable Registry nor
in the CalculatedVariable map never fails: the interpreter falls through to
parseNumber and pushes its result (a Complex with a NaN component whenever
the name is not a numeric literal). -/
theorem unknown_identifier_falls_through (M : MathModel) (vl : List Variable)
    (num : Complex) (st : EvalState) (s : String)
    (hx : jsTrim s ≠ "x") (hne : jsTrim s ≠ "")
    (hhash : (jsTrim s).data.head? ≠ some '#')
    (heqs : (jsTrim s).data.head? ≠ some '=')
    (hop : operations (jsTrim s) = none)
    (hvar : lookupVariable vl (jsTrim s) = none)
    (hcalc : calcLookup st.calculatedVars (jsTrim s) = none) :
    execLine M vl num st s =
      .ok { st with functionStack := some (parseNumber (jsTrim s)) :: st.functionStack } := by
  simp only [execLine]
  rw [if_neg hx, if_pos (And.intro hne hhash), if_neg heqs, hop, hvar, hcalc]

/-- Witness for the C5 amended theorem at the identifier foo with an empty
Registry: the pushed value is (NaN, 0). -/
theorem unknown_identifier_falls_through_witness :
    lookupVariable [] (jsTrim ("foo")) = none ∧
    execLine defaultModel [] { re := .num 0, im := .num 0 }
      { functionStack := [], calculatedVars := [] } ("foo") =
      .ok { functionStack := [some { re := .nan, im := .num 0 }], calculatedVars := [] } := by
  refine ⟨rfl, ?_⟩
  have h := unknown_identifier_falls_through defaultModel [] { re := .num 0, im := .num 0 }
    { functionStack := [], calculatedVars := [] } ("foo")
    (by decide) (by decide) (by decide) (by decide) rfl rfl rfl
  exact h.trans (by with_unfolding_all rfl)

/-- C8: the program x, =a, a, a, * evaluated at x = 5 against any Variable
Registry with no entry named a yields exactly the one result 25: the
assignment binds a to 5 and the two reads and the multiplication square
it. -/
theorem assign_then_reuse_square (M : MathModel) (vl : List Variable)
    (hvar : lookupVariable vl ("a") = none) :
    userFunction M vl [("x"), ("=a"), ("a"), ("a"), ("*")] { re := .num 5, im := .num 0 } =
      .ok [some { re := .num 25, im := .num 0 }] := by
  have h3 : execLine M vl { re := .num 5, im := .num 0 }
      { functionStack := [], calculatedVars := [(("a"), some { re := .num 5, im := .num 0 })] }
      ("a") =
      .ok { functionStack := [some { re := .num 5, im := .num 0 }],
            calculatedVars := [(("a"), some { re := .num 5, im := .num 0 })] } :=
    execLine_calcVar M vl _ _ ("a") _
      (by decide) (by decide) (by decide) (by decide) rfl hvar rfl
  have h4 : execLine M vl { re := .num 5, im := .num 0 }
      { functionStack := [some { re := .num 5, im := .num 0 }],
        calculatedVars := [(("a"), some { re := .num 5, im := .num 0 })] }
      ("a") =
      .ok { functionStack := [some { re := .num 5, im := .num 0 },
              some { re := .num 5, im := .num 0 }],
            calculatedVars := [(("a"), some { re := .num 5, im := .num 0 })] } :=
    execLine_calcVar M vl _ _ ("a") _
      (by decide) (by decide) (by decide) (by decide) rfl hvar rfl
  have h5 : execLine M vl { re := .num 5, im := .num 0 }
      { functionStack := [some { re := .num 5, im := .num 0 },
          some { re := .num 5, im := .num 0 }],
        calculatedVars := [(("a"), some { re := .num 5, im := .num 0 })] }
      ("*") =
      .ok { functionStack := [some { re := .num 25, im := .num 0 }],
            calculatedVars := [(("a"), some { re := .num 5, im := .num 0 })] } := by
    with_unfolding_all rfl
  unfold userFunction
  rw [foldlM_except_cons (execLine M vl { re := .num 5, im := .num 0 })
      { functionStack := [], calculatedVars := [] }
      { functionStack := [some { re := .num 5, im := .num 0 }], calculatedVars := [] }
      ("x") [("=a"), ("a"), ("a"), ("*")] rfl]
  rw [foldlM_except_cons (execLine M vl { re := .num 5, im := .num 0 })
      { functionStack := [some { re := .num 5, im := .num 0 }], calculatedVars := [] }
      { functionStack := [], calculatedVars := [(("a"), some { re := .num 5, im := .num 0 })] }
      ("=a") [("a"), ("a"), ("*")] rfl]
  rw [foldlM_except_cons (execLine M vl { re := .num 5, im := .num 0 }) _ _
      ("a") [("a"), ("*")] h3]
  rw [foldlM_except_cons (execLine M vl { re := .num 5, im := .num 0 }) _ _
      ("a") [("*")] h4]
  rw [foldlM_except_cons (execLine M vl { re := .num 5, im := .num 0 }) _ _
      ("*") [] h5]
  rfl

/-- Witness for the C8 theorem at the empty Registry. -/
theorem assign_then_reuse_square_witness :
    lookupVariable [] ("a") = none ∧
    userFunction defaultModel [] [("x"), ("=a"), ("a"), ("a"), ("*")]
      { re := .num 5, im := .num 0 } = .ok [some { re := .num 25, im := .num 0 }] :=
  ⟨rfl, assign_then_reuse_square defaultModel [] rfl⟩

end ComplexGraphing
